import Mathlib

/-!
Shallow embedding of `src/update_stock_data.py` (vi-tools).

Modelling conventions:
* Spreadsheet cells hold a rational number or a string; `none` is an empty
  cell (Python `None`).  Machine floats are modelled by `ℚ`; a null/NaN
  numeric field is modelled by `Option ℚ = none`, mirroring how the source
  treats `None` and `pandas.isna` values alike wherever it checks them.
* The market-data provider (akshare) is external: the two market snapshots
  and the per-ticker history fetchers are passed to the drivers as
  parameters.  An empty snapshot / empty bar list models the provider
  failure signal, exactly as the Python adapters return empty data frames
  on any exception.
* Worksheets are row lists; `openpyxl`'s `ws.cell(row=..., column=...)`
  read/write with 1-based indices is modelled by `getCell` / `setCell`,
  which pad with empty cells the way openpyxl materialises cells.
* Console output is modelled only for the warning / error messages the
  spec talks about (`LogEvent`); informational prints are dropped.
-/

namespace ViTools

/-- Spreadsheet cell payload: a number or a string. -/
inductive Value where
  | num (q : ℚ)
  | str (s : String)
deriving DecidableEq

/-- Cell content; `none` models an empty cell (Python `None`). -/
abbrev Cell := Option Value

/-- Python truthiness of a cell value, as used in the list comprehension
filter `if row[stock_code_col].value` (lines 118 and 249). -/
def truthy : Cell → Bool
  | none => false
  | some (Value.num q) => decide (q ≠ 0)
  | some (Value.str s) => decide (s ≠ "")

/-- Python `str()` applied to a cell value (`str(stock_code)`, lines 144/254).
`str(None) = "None"`; an integral numeric cell renders as its integer text. -/
def cellStr : Cell → String
  | none => "None"
  | some (Value.str s) => s
  | some (Value.num q) => if q.den = 1 then toString q.num else toString q

/-- Numeric reading of a cell, used for the previous-low watermark cell:
`none` covers the `current_previous_low is None or pd.isna(...)` test of the
source.  (A string in the watermark cell would make the Python `min` raise;
sheets are assumed numerically typed there, as in the source's own data.) -/
def cellNum : Cell → Option ℚ
  | some (Value.num q) => some q
  | _ => none

/-- Write position `n` (0-based) of a list, padding with `d` as openpyxl
materialises missing cells/rows on write. -/
def padSet {α : Type} (d : α) : List α → Nat → α → List α
  | [], 0, v => [v]
  | [], n+1, v => d :: padSet d [] n v
  | _ :: xs, 0, v => v :: xs
  | x :: xs, n+1, v => x :: padSet d xs n v

/-- A worksheet: list of rows, row 1 first. -/
structure Worksheet where
  rows : List (List Cell)
deriving DecidableEq

/-- Read a whole row (1-based index). -/
def getRow (ws : Worksheet) (r : Nat) : List Cell := ws.rows.getD (r-1) []

/-- Replace a whole row (1-based index), padding with empty rows. -/
def setRow (ws : Worksheet) (r : Nat) (row : List Cell) : Worksheet :=
  ⟨padSet [] ws.rows (r-1) row⟩

/-- Read a cell of a row (1-based column). -/
def getCellRow (row : List Cell) (c : Nat) : Cell := row.getD (c-1) none

/-- Write a cell of a row (1-based column). -/
def setCellRow (row : List Cell) (c : Nat) (v : Cell) : List Cell :=
  padSet none row (c-1) v

/-- Read a cell, `ws.cell(row=r, column=c).value` (1-based). -/
def getCell (ws : Worksheet) (r c : Nat) : Cell := getCellRow (getRow ws r) c

/-- Write a cell, `ws.cell(row=r, column=c, value=v)` (1-based). -/
def setCell (ws : Worksheet) (r c : Nat) (v : Cell) : Worksheet :=
  setRow ws r (setCellRow (getRow ws r) c v)

/-- One row of a live market snapshot data frame.  `latest = none` models a
null/NaN `最新价`; `totalValue` is `总市值` (meaningful for A-shares). -/
structure QuoteRow where
  code : String
  name : String
  latest : Option ℚ
  pct : ℚ
  totalValue : ℚ
deriving DecidableEq

/-- A market snapshot; the empty list is the adapter's failure signal
(`DataFrame.empty`). -/
abbrev Snapshot := List QuoteRow

/-- `df[df["代码"] == stock_code]` followed by `.iloc[0]`: first row whose
code matches, if any. -/
def snapshotFind (s : Snapshot) (code : String) : Option QuoteRow :=
  s.find? (fun r => r.code == code)

/-- One daily OHLC history bar: `收盘`, `涨跌额`, `最高`, `最低`, `涨跌幅`. -/
structure HistoryBar where
  close : ℚ
  change : ℚ
  high : ℚ
  low : ℚ
  pct : ℚ
deriving DecidableEq

/-- Placeholder bar, only used behind a nonemptiness guard. -/
def defaultBar : HistoryBar := ⟨0, 0, 0, 0, 0⟩

/-- Arithmetic mean of a pandas column (`Series.mean`). -/
def seriesMean (l : List ℚ) : ℚ := l.sum / l.length

/-- Embedding of `calculate_volatility` (lines 48-61): per-bar columns
`前收盘 = 收盘 - 涨跌额`, `波动率h`, `波动率l`, row-wise max of `波动率h`
and `-波动率l`, then the three column means. -/
def calculate_volatility (bars : List HistoryBar) : ℚ × ℚ × ℚ :=
  let colH := bars.map (fun b => (b.high - (b.close - b.change)) / (b.close - b.change))
  let colL := bars.map (fun b => (b.low - (b.close - b.change)) / (b.close - b.change))
  let colNegL := colL.map (fun x => -x)
  let colMax := List.zipWith max colH colNegL
  (seriesMean colH, seriesMean colL, seriesMean colMax)

/-- The previous-low watermark update, inlined identically at lines 160-166,
189-196, 277-283 and 293-299 of the source: keep the new price when no low
is recorded (null/NaN), else `min(latest_price, current_previous_low)`. -/
def update_previous_low (current : Option ℚ) (new_price : ℚ) : ℚ :=
  match current with
  | none => new_price
  | some c => min new_price c

/-- Console messages the error-handling design cares about. -/
inductive LogEvent where
  | sheetMissing (name : String)
  | missingColumn (col : String)
  | fetchFailed (market : String)
  | notFound (code : String)
  | invalidPrice (code : String)
deriving DecidableEq

/-- Embedding of `headers = {cell.value: idx+1 for idx, cell in
enumerate(ws[1])}` followed by `headers.get(name)`: the 1-based position of
the last header cell holding the string `name` (dict comprehension keeps
the last occurrence). -/
def headerIndex (ws : Worksheet) (name : String) : Option Nat :=
  Option.map (fun j => j + 1)
    (((List.range (getRow ws 1).length).reverse).find?
      (fun j => decide ((getRow ws 1).getD j none = some (Value.str name))))

/-- Required header names of the price driver (line 102). -/
def priceRequired : List String :=
  ["代码", "现价(CNY)", "现价(HKD)", "今日涨幅", "总股本", "更新时间"]

/-- Required header names of the volatility driver (line 231). -/
def volRequired : List String := ["代码", "波动率h", "波动率l", "波动率"]

/-- First required column missing from the header row, mirroring the
`for col in required_columns: if col not in headers: ...; return` loop. -/
def requiredMissing (ws : Worksheet) (cols : List String) : Option String :=
  cols.find? (fun c => (headerIndex ws c).isNone)

/-- Embedding of line 118 (and the identical line 249):
`[row[stock_code_col-1].value for row in ws.iter_rows(min_row=2,
max_col=stock_code_col+1) if row[stock_code_col].value]`.
Each yielded row covers columns `1 .. codeCol+1` (0-based indices
`0 .. codeCol`); the filter tests index `codeCol`, i.e. the column to the
right of the code column, while index `codeCol - 1` (the code column
itself) is collected. -/
def stockCodes (ws : Worksheet) (codeCol : Nat) : List Cell :=
  (ws.rows.drop 1).filterMap (fun r =>
    if truthy (r.getD codeCol none) then some (r.getD (codeCol - 1) none) else none)

/-- Optional-column write: `if col: ws.cell(row=i, column=col, value=v)`. -/
def setCellRowOpt (row : List Cell) (c : Option Nat) (v : Cell) : List Cell :=
  match c with
  | some cc => setCellRow row cc v
  | none => row

/-- The optional previous-low block (`if previous_low_col: ...`): read the
cell, apply the watermark update, write it back. -/
def updatePrevLowRow (row : List Cell) (c : Option Nat) (new_price : ℚ) : List Cell :=
  match c with
  | some plc =>
      setCellRow row plc
        (some (Value.num (update_previous_low (cellNum (getCellRow row plc)) new_price)))
  | none => row

/-- Per-ticker body of the price driver loop (lines 143-201), acting on the
ticker's own sheet row.  Returns the updated row and the warnings printed. -/
def priceRowStep (aData hkData : Snapshot)
    (aCol hkCol pctCol totalCol timeCol : Nat) (plOpt : Option Nat)
    (now : String) (codeCell : Cell) (row : List Cell) :
    List Cell × List LogEvent :=
  let code := cellStr codeCell
  if code.length = 5 then
    match snapshotFind hkData code with
    | some qr =>
      match qr.latest with
      | none => (row, [LogEvent.invalidPrice code])
      | some p =>
        if p ≤ 0 then (row, [LogEvent.invalidPrice code])
        else
          let pc := qr.pct / 100
          let r1 := setCellRow row hkCol (some (Value.num p))
          let r2 := setCellRow r1 pctCol (some (Value.num pc))
          let r3 := setCellRow r2 timeCol (some (Value.str now))
          (updatePrevLowRow r3 plOpt p, [])
    | none => (row, [LogEvent.notFound code])
  else if code.length = 6 then
    match snapshotFind aData code with
    | some qr =>
      match qr.latest with
      | none => (row, [LogEvent.invalidPrice code])
      | some p =>
        if p ≤ 0 then (row, [LogEvent.invalidPrice code])
        else
          let pc := qr.pct / 100
          let tsi := qr.totalValue / p * (1 / 100000000)
          let r1 := setCellRow row aCol (some (Value.num p))
          let r2 := setCellRow r1 totalCol (some (Value.num tsi))
          let r3 := setCellRow r2 pctCol (some (Value.num pc))
          let r4 := setCellRow r3 timeCol (some (Value.str now))
          (updatePrevLowRow r4 plOpt p, [])
    | none => (row, [LogEvent.notFound code])
  else (row, [])

/-- Embedding of `get_stock_history` (lines 28-46): dispatch on code length,
any other length yields an empty frame; the per-market fetchers are the
external akshare calls (already returning `[]` on provider failure). -/
def get_stock_history (fetchHK fetchA : String → List HistoryBar)
    (code : String) : List HistoryBar :=
  if code.length = 5 then fetchHK code
  else if code.length = 6 then fetchA code
  else []

/-- Per-ticker body of the volatility driver loop (lines 253-311), acting on
the ticker's own sheet row. -/
def volRowStep (fetchHK fetchA : String → List HistoryBar)
    (vhCol vlCol vCol : Nat)
    (aCol hkCol pctCol timeCol plCol : Option Nat)
    (update_prices : Bool) (now : String)
    (codeCell : Cell) (row : List Cell) : List Cell × List LogEvent :=
  let code := cellStr codeCell
  let bars := get_stock_history fetchHK fetchA code
  if bars.isEmpty then (row, [LogEvent.notFound code])
  else
    let v := calculate_volatility bars
    let r1 := setCellRow row vhCol (some (Value.num v.1))
    let r2 := setCellRow r1 vlCol (some (Value.num v.2.1))
    let r3 := setCellRow r2 vCol (some (Value.num v.2.2))
    if update_prices then
      let lastBar := bars.getLast?.getD defaultBar
      let lp := lastBar.close
      let lpc := lastBar.pct / 100
      let r4 :=
        if code.length = 5 then
          match hkCol with
          | some hc =>
            let rA := setCellRow r3 hc (some (Value.num lp))
            let rB := setCellRowOpt rA pctCol (some (Value.num lpc))
            updatePrevLowRow rB plCol lp
          | none => r3
        else if code.length = 6 then
          match aCol with
          | some ac =>
            let rA := setCellRow r3 ac (some (Value.num lp))
            let rB := setCellRowOpt rA pctCol (some (Value.num lpc))
            updatePrevLowRow rB plCol lp
          | none => r3
        else r3
      (setCellRowOpt r4 timeCol (some (Value.str now)), [])
    else (r3, [])

/-- The drivers' shared per-ticker iteration: `for i, stock_code in
enumerate(stock_codes, start=2)`, each body reading and writing only the
ticker's own row `i`. -/
def sheetLoop (step : Cell → List Cell → List Cell × List LogEvent) :
    List Cell → Nat → Worksheet → Worksheet × List LogEvent
  | [], _, ws => (ws, [])
  | c :: cs, i, ws =>
    let st := step c (getRow ws i)
    let rest := sheetLoop step cs (i+1) (setRow ws i st.1)
    (rest.1, st.2 ++ rest.2)

/-- A workbook: named sheets. -/
abbrev Workbook := List (String × Worksheet)

/-- Sheet lookup, `sheet_name in wb.sheetnames` / `wb[sheet_name]`. -/
def sheetLookup (wb : Workbook) (name : String) : Option Worksheet :=
  Option.map (fun p => p.2) (wb.find? (fun p => p.1 == name))

/-- Replace a named sheet's contents in the workbook. -/
def updateSheet (wb : Workbook) (name : String) (ws : Worksheet) : Workbook :=
  wb.map (fun p => if p.1 == name then (p.1, ws) else p)

/-- Outcome of one driver invocation: the in-memory workbook, whether
`wb.save` ran, the Python return value (`none` models `return None`),
and the warnings/errors printed. -/
structure DriverResult where
  wb : Workbook
  saved : Bool
  ret : Option Bool
  logs : List LogEvent
deriving DecidableEq

/-- Embedding of `update_stock_prices` (lines 86-208).  The two snapshots
are the results of the (external) `get_a_share_data` / `get_hk_share_data`
calls; `now` stands for the timestamp strings taken during the run. -/
def update_stock_prices (wb : Workbook) (sheet_name : String)
    (aData hkData : Snapshot) (now : String) : DriverResult :=
  match sheetLookup wb sheet_name with
  | none => ⟨wb, false, none, [LogEvent.sheetMissing sheet_name]⟩
  | some ws =>
    match requiredMissing ws priceRequired with
    | some c => ⟨wb, false, none, [LogEvent.missingColumn c]⟩
    | none =>
      let codeCol := (headerIndex ws "代码").getD 0
      let aCol := (headerIndex ws "现价(CNY)").getD 0
      let hkCol := (headerIndex ws "现价(HKD)").getD 0
      let pctCol := (headerIndex ws "今日涨幅").getD 0
      let totalCol := (headerIndex ws "总股本").getD 0
      let timeCol := (headerIndex ws "更新时间").getD 0
      let plOpt := headerIndex ws "前低"
      let codes := stockCodes ws codeCol
      if aData.isEmpty then ⟨wb, false, some false, [LogEvent.fetchFailed "A"]⟩
      else if hkData.isEmpty then ⟨wb, false, some false, [LogEvent.fetchFailed "HK"]⟩
      else
        let lp := sheetLoop
          (priceRowStep aData hkData aCol hkCol pctCol totalCol timeCol plOpt now)
          codes 2 ws
        let ws2 := setCell lp.1 (codes.length + 5) 1 (some (Value.str now))
        ⟨updateSheet wb sheet_name ws2, true, some true, lp.2⟩

/-- Embedding of `update_stock_volatility` (lines 210-318); the Python
function always returns `None`, hence `ret = none`. -/
def update_stock_volatility (wb : Workbook) (sheet_name : String)
    (fetchHK fetchA : String → List HistoryBar)
    (update_prices : Bool) (now : String) : DriverResult :=
  match sheetLookup wb sheet_name with
  | none => ⟨wb, false, none, [LogEvent.sheetMissing sheet_name]⟩
  | some ws =>
    match requiredMissing ws volRequired with
    | some c => ⟨wb, false, none, [LogEvent.missingColumn c]⟩
    | none =>
      let codeCol := (headerIndex ws "代码").getD 0
      let vhCol := (headerIndex ws "波动率h").getD 0
      let vlCol := (headerIndex ws "波动率l").getD 0
      let vCol := (headerIndex ws "波动率").getD 0
      let aCol := headerIndex ws "现价(CNY)"
      let hkCol := headerIndex ws "现价(HKD)"
      let pctCol := headerIndex ws "今日涨幅"
      let timeCol := headerIndex ws "更新时间"
      let plCol := headerIndex ws "前低"
      let codes := stockCodes ws codeCol
      let lp := sheetLoop
        (volRowStep fetchHK fetchA vhCol vlCol vCol aCol hkCol pctCol timeCol plCol
          update_prices now)
        codes 2 ws
      ⟨updateSheet wb sheet_name lp.1, true, none, lp.2⟩

/-- Parsed command-line flags of `main`. -/
structure Args where
  price : Bool
  volatility : Bool
  all : Bool
deriving DecidableEq

/-- One driver invocation as recorded by the coordinator. -/
inductive RunStep where
  | prices (ret : Option Bool)
  | volatility (update_prices : Bool)
deriving DecidableEq

/-- The hard-coded sheet name of `main`. -/
def sheetName : String := "预期收益率管理"

/-- Embedding of `main` (lines 320-342): dispatch on flags, thread the
on-disk workbook through the drivers (a driver's in-memory changes reach
disk only if it saved), and record which drivers ran with which flag.
`not price_updated` on a `None` return is `True`, as in Python. -/
def main_run (args : Args) (wb0 : Workbook) (aData hkData : Snapshot)
    (fetchHK fetchA : String → List HistoryBar) (now : String) :
    Workbook × List RunStep :=
  if args.all then
    let r1 := update_stock_prices wb0 sheetName aData hkData now
    let wb1 := if r1.saved then r1.wb else wb0
    let up := !(r1.ret.getD false)
    let r2 := update_stock_volatility wb1 sheetName fetchHK fetchA up now
    let wb2 := if r2.saved then r2.wb else wb1
    (wb2, [RunStep.prices r1.ret, RunStep.volatility up])
  else if args.price then
    let r1 := update_stock_prices wb0 sheetName aData hkData now
    (if r1.saved then r1.wb else wb0, [RunStep.prices r1.ret])
  else if args.volatility then
    let r2 := update_stock_volatility wb0 sheetName fetchHK fetchA true now
    (if r2.saved then r2.wb else wb0, [RunStep.volatility true])
  else
    let r1 := update_stock_prices wb0 sheetName aData hkData now
    (if r1.saved then r1.wb else wb0, [RunStep.prices r1.ret])

/-- The named sheet of a workbook, for stating results (total variant). -/
def resultSheet (wb : Workbook) (name : String) : Worksheet :=
  (sheetLookup wb name).getD ⟨[]⟩

end ViTools

namespace ViTools


/-- Header row of the concrete test sheet: all six price-driver columns,
the optional previous-low column and the three volatility columns. -/
def hdrEx : List Cell :=
  [some (Value.str "代码"), some (Value.str "现价(CNY)"), some (Value.str "现价(HKD)"),
   some (Value.str "今日涨幅"), some (Value.str "总股本"), some (Value.str "更新时间"),
   some (Value.str "前低"), some (Value.str "波动率h"), some (Value.str "波动率l"),
   some (Value.str "波动率")]

/-- Concrete sheet: an HK ticker, an A ticker, a ticker absent from the
snapshots, and a ticker whose code has an unknown length. -/
def wsEx : Worksheet :=
  ⟨[hdrEx,
    [some (Value.str "00001"), some (Value.num 1), none, none, none, none,
     some (Value.num 50)],
    [some (Value.str "600025"), some (Value.num 8)],
    [some (Value.str "00002"), some (Value.num 1)],
    [some (Value.str "1234"), some (Value.num 1)]]⟩

/-- Concrete workbook holding `wsEx` under the sheet name `main` uses. -/
def wbEx : Workbook := [(sheetName, wsEx)]

/-- Concrete HK snapshot: quotes `00001` only. -/
def hkSnapEx : Snapshot := [⟨"00001", "CKH", some 40, 5, 0⟩]

/-- Concrete A-share snapshot quoting `600025` with market value 2e9. -/
def aSnapEx : Snapshot := [⟨"600025", "HNHydro", some 10, 3, 2000000000⟩]

/-- Same A-share snapshot with market value 3e9 instead. -/
def aSnapEx2 : Snapshot := [⟨"600025", "HNHydro", some 10, 3, 3000000000⟩]

/-- Concrete HK history fetcher: one bar whose closing price is negative. -/
def fetchHKEx : String → List HistoryBar := fun _ => [⟨-5, 1, 2, -7, 10⟩]

/-- Concrete A-share history fetcher: provider failure (empty). -/
def fetchAEx : String → List HistoryBar := fun _ => []

/-- A sheet whose header has the code column only, so that both drivers
miss a required column. -/
def wsBadEx : Worksheet := ⟨[[some (Value.str "代码")]]⟩

/-- Workbook around `wsBadEx`. -/
def wbBadEx : Workbook := [(sheetName, wsBadEx)]

/-- Sheet for the ticker-list claim: row 2 has a non-empty code cell but an
empty cell right of it; row 3 has an empty code cell but a non-empty cell
right of it. -/
def wsC9 : Worksheet :=
  ⟨[[some (Value.str "代码")],
    [some (Value.str "00001")],
    [none, some (Value.str "x")]]⟩

/-- Spec-side per-bar upside excursion, as the claim words it. -/
def upsideSpec (b : HistoryBar) : ℚ :=
  (b.high - (b.close - b.change)) / (b.close - b.change)

/-- Spec-side per-bar downside excursion, as the claim words it. -/
def downsideSpec (b : HistoryBar) : ℚ :=
  (b.low - (b.close - b.change)) / (b.close - b.change)

/-- Spec-side per-bar combined excursion `max(upside, -downside)`. -/
def combinedSpec (b : HistoryBar) : ℚ := max (upsideSpec b) (-(downsideSpec b))

theorem padSet_getD_same {α : Type} (d : α) (l : List α) (n : Nat) (v : α) (d' : α) :
    (padSet d l n v).getD n d' = v := by
  induction n generalizing l with
  | zero => cases l <;> rfl
  | succ k ih =>
    cases l with
    | nil =>
      show (d :: padSet d [] k v).getD (k+1) d' = v
      rw [List.getD_cons_succ]
      exact ih []
    | cons x xs =>
      show (x :: padSet d xs k v).getD (k+1) d' = v
      rw [List.getD_cons_succ]
      exact ih xs

theorem padSet_getD_ne {α : Type} (d : α) (l : List α) {n m : Nat} (v : α) (h : m ≠ n) :
    (padSet d l n v).getD m d = l.getD m d := by
  induction n generalizing l m with
  | zero =>
    cases m with
    | zero => exact absurd rfl h
    | succ m2 =>
      cases l with
      | nil =>
        show ([v] : List α).getD (m2+1) d = ([] : List α).getD (m2+1) d
        rw [List.getD_cons_succ]
        rfl
      | cons x xs =>
        show (v :: xs).getD (m2+1) d = (x :: xs).getD (m2+1) d
        rw [List.getD_cons_succ, List.getD_cons_succ]
  | succ k ih =>
    cases m with
    | zero =>
      cases l with
      | nil => rfl
      | cons x xs => rfl
    | succ m2 =>
      have hm : m2 ≠ k := by omega
      cases l with
      | nil =>
        show (d :: padSet d [] k v).getD (m2+1) d = ([] : List α).getD (m2+1) d
        rw [List.getD_cons_succ, ih [] hm]
        rfl
      | cons x xs =>
        show (x :: padSet d xs k v).getD (m2+1) d = (x :: xs).getD (m2+1) d
        rw [List.getD_cons_succ, List.getD_cons_succ]
        exact ih xs hm

theorem getRow_setRow_same (ws : Worksheet) (r : Nat) (row : List Cell) :
    getRow (setRow ws r row) r = row :=
  padSet_getD_same [] ws.rows (r-1) row []

theorem getRow_setRow_ne (ws : Worksheet) (r : Nat) (row : List Cell) {r' : Nat}
    (h : r' - 1 ≠ r - 1) :
    getRow (setRow ws r row) r' = getRow ws r' :=
  padSet_getD_ne [] ws.rows row h

theorem getCellRow_setCellRow_same (row : List Cell) (c : Nat) (v : Cell) :
    getCellRow (setCellRow row c v) c = v :=
  padSet_getD_same none row (c-1) v none

theorem getCellRow_setCellRow_ne (row : List Cell) {c c' : Nat} (v : Cell)
    (h : c' - 1 ≠ c - 1) :
    getCellRow (setCellRow row c v) c' = getCellRow row c' :=
  padSet_getD_ne none row v h

theorem getCellRow_setCellRowOpt_ne (row : List Cell) {c : Option Nat} {c' : Nat} (v : Cell)
    (h : ∀ x, c = some x → c' - 1 ≠ x - 1) :
    getCellRow (setCellRowOpt row c v) c' = getCellRow row c' := by
  cases c with
  | none => rfl
  | some cc => exact getCellRow_setCellRow_ne row v (h cc rfl)

theorem getCellRow_updatePrevLowRow_ne (row : List Cell) {c : Option Nat} {c' : Nat} (p : ℚ)
    (h : ∀ x, c = some x → c' - 1 ≠ x - 1) :
    getCellRow (updatePrevLowRow row c p) c' = getCellRow row c' := by
  cases c with
  | none => rfl
  | some plc => exact getCellRow_setCellRow_ne row _ (h plc rfl)

theorem getCell_setCell_ne_row (ws : Worksheet) (r c : Nat) (v : Cell) {r' c' : Nat}
    (h : r' - 1 ≠ r - 1) :
    getCell (setCell ws r c v) r' c' = getCell ws r' c' := by
  unfold getCell setCell
  rw [getRow_setRow_ne _ _ _ h]

theorem getRow_setCell_ne (ws : Worksheet) (r c : Nat) (v : Cell) {r' : Nat}
    (h : r' - 1 ≠ r - 1) :
    getRow (setCell ws r c v) r' = getRow ws r' := by
  unfold setCell
  exact getRow_setRow_ne _ _ _ h

theorem sheetLoop_getRow_out (step : Cell → List Cell → List Cell × List LogEvent)
    (cs : List Cell) : ∀ (i r : Nat) (ws : Worksheet),
    (∀ j, j < cs.length → r - 1 ≠ (i + j) - 1) →
    getRow (sheetLoop step cs i ws).1 r = getRow ws r := by
  induction cs with
  | nil => intro i r ws _; rfl
  | cons c cs ih =>
    intro i r ws h
    simp only [sheetLoop]
    rw [ih (i+1) r _ (fun j hj => by
      have := h (j+1) (by simpa using Nat.succ_lt_succ hj)
      omega)]
    exact getRow_setRow_ne ws i _ (by
      have := h 0 (by simp)
      omega)

theorem sheetLoop_getRow_focus (step : Cell → List Cell → List Cell × List LogEvent)
    (cs : List Cell) : ∀ (i j : Nat) (ws : Worksheet), j < cs.length → 1 ≤ i →
    getRow (sheetLoop step cs i ws).1 (i + j) =
      (step (cs.getD j none) (getRow ws (i + j))).1 := by
  induction cs with
  | nil => intro i j ws hj _; simp at hj
  | cons c cs ih =>
    intro i j ws hj hi
    cases j with
    | zero =>
      simp only [sheetLoop]
      rw [sheetLoop_getRow_out _ cs (i+1) (i+0) _ (fun j hj2 => by omega)]
      simp [getRow_setRow_same]
    | succ j2 =>
      simp only [sheetLoop]
      have hrec := ih (i+1) j2 (setRow ws i (step c (getRow ws i)).1)
        (by simpa using hj) (by omega)
      have hrw : i + (j2 + 1) = (i + 1) + j2 := by omega
      rw [hrw, hrec, getRow_setRow_ne ws i _ (by omega)]
      simp

theorem sheetLoop_log_mem (step : Cell → List Cell → List Cell × List LogEvent)
    (cs : List Cell) : ∀ (i j : Nat) (ws : Worksheet) (e : LogEvent),
    j < cs.length → 1 ≤ i →
    e ∈ (step (cs.getD j none) (getRow ws (i + j))).2 →
    e ∈ (sheetLoop step cs i ws).2 := by
  induction cs with
  | nil => intro i j ws e hj _ _; simp at hj
  | cons c cs ih =>
    intro i j ws e hj hi hmem
    cases j with
    | zero =>
      simp only [sheetLoop]
      refine List.mem_append.mpr (Or.inl ?_)
      simpa using hmem
    | succ j2 =>
      simp only [sheetLoop]
      refine List.mem_append.mpr (Or.inr ?_)
      refine ih (i+1) j2 (setRow ws i (step c (getRow ws i)).1) e
        (by simpa using hj) (by omega) ?_
      rw [getRow_setRow_ne ws i _ (by omega)]
      have hrw : (i + 1) + j2 = i + (j2 + 1) := by omega
      rw [hrw]
      simpa using hmem

theorem headerIndex_cell {ws : Worksheet} {s : String} {c : Nat}
    (h : headerIndex ws s = some c) :
    1 ≤ c ∧ (getRow ws 1).getD (c - 1) none = some (Value.str s) := by
  unfold headerIndex at h
  cases hf : ((List.range (getRow ws 1).length).reverse).find?
      (fun j => decide ((getRow ws 1).getD j none = some (Value.str s))) with
  | none => rw [hf] at h; simp at h
  | some j =>
    rw [hf] at h
    have hc : j + 1 = c := by simpa using h
    have hp := List.find?_some hf
    have hj : (getRow ws 1).getD j none = some (Value.str s) := by simpa using hp
    refine ⟨by omega, ?_⟩
    rw [← hc]
    simpa using hj

theorem headerIndex_pos {ws : Worksheet} {s : String} {c : Nat}
    (h : headerIndex ws s = some c) : 1 ≤ c :=
  (headerIndex_cell h).1

theorem headerIndex_inj {ws : Worksheet} {s1 s2 : String} {c1 c2 : Nat}
    (h1 : headerIndex ws s1 = some c1) (h2 : headerIndex ws s2 = some c2)
    (hne : s1 ≠ s2) : c1 ≠ c2 := by
  intro hc
  have e1 := (headerIndex_cell h1).2
  have e2 := (headerIndex_cell h2).2
  rw [hc, e2] at e1
  injection e1 with hv
  injection hv with hs
  exact hne hs.symm

theorem sheetLookup_updateSheet (wb : Workbook) (sn : String) (ws2 : Worksheet)
    (h : (sheetLookup wb sn).isSome) :
    sheetLookup (updateSheet wb sn ws2) sn = some ws2 := by
  induction wb with
  | nil => simp [sheetLookup] at h
  | cons p rest ih =>
    by_cases hp : (p.1 == sn) = true
    · simp [sheetLookup, updateSheet, List.find?, hp]
    · have hp2 : (p.1 == sn) = false := by simpa using hp
      have hh : (sheetLookup rest sn).isSome := by
        simpa [sheetLookup, List.find?, hp2] using h
      have hrec := ih hh
      simpa [sheetLookup, updateSheet, List.find?, hp2] using hrec

theorem isEmpty_false_of_ne {α : Type} {l : List α} (h : l ≠ []) : l.isEmpty = false := by
  cases l with
  | nil => exact absurd rfl h
  | cons a as => rfl

theorem requiredMissing_price_none {ws : Worksheet}
    {codeCol aCol hkCol pctCol totalCol timeCol : Nat}
    (h1 : headerIndex ws "代码" = some codeCol)
    (h2 : headerIndex ws "现价(CNY)" = some aCol)
    (h3 : headerIndex ws "现价(HKD)" = some hkCol)
    (h4 : headerIndex ws "今日涨幅" = some pctCol)
    (h5 : headerIndex ws "总股本" = some totalCol)
    (h6 : headerIndex ws "更新时间" = some timeCol) :
    requiredMissing ws priceRequired = none := by
  simp [requiredMissing, priceRequired, List.find?, h1, h2, h3, h4, h5, h6]

theorem requiredMissing_vol_none {ws : Worksheet} {codeCol vhCol vlCol vCol : Nat}
    (h1 : headerIndex ws "代码" = some codeCol)
    (h7 : headerIndex ws "波动率h" = some vhCol)
    (h8 : headerIndex ws "波动率l" = some vlCol)
    (h9 : headerIndex ws "波动率" = some vCol) :
    requiredMissing ws volRequired = none := by
  simp [requiredMissing, volRequired, List.find?, h1, h7, h8, h9]

theorem update_stock_prices_eq {wb : Workbook} {sn : String} {aData hkData : Snapshot}
    {now : String} {ws : Worksheet} {codeCol aCol hkCol pctCol totalCol timeCol : Nat}
    (hs : sheetLookup wb sn = some ws)
    (h1 : headerIndex ws "代码" = some codeCol)
    (h2 : headerIndex ws "现价(CNY)" = some aCol)
    (h3 : headerIndex ws "现价(HKD)" = some hkCol)
    (h4 : headerIndex ws "今日涨幅" = some pctCol)
    (h5 : headerIndex ws "总股本" = some totalCol)
    (h6 : headerIndex ws "更新时间" = some timeCol)
    (ha : aData ≠ []) (hk : hkData ≠ []) :
    update_stock_prices wb sn aData hkData now =
      ⟨updateSheet wb sn
         (setCell (sheetLoop (priceRowStep aData hkData aCol hkCol pctCol totalCol timeCol
             (headerIndex ws "前低") now) (stockCodes ws codeCol) 2 ws).1
           ((stockCodes ws codeCol).length + 5) 1 (some (Value.str now))),
       true, some true,
       (sheetLoop (priceRowStep aData hkData aCol hkCol pctCol totalCol timeCol
           (headerIndex ws "前低") now) (stockCodes ws codeCol) 2 ws).2⟩ := by
  have hreq := requiredMissing_price_none h1 h2 h3 h4 h5 h6
  unfold update_stock_prices
  simp only [hs, hreq, h1, h2, h3, h4, h5, h6, Option.getD_some,
    isEmpty_false_of_ne ha, isEmpty_false_of_ne hk]
  rfl

theorem update_stock_volatility_eq {wb : Workbook} {sn : String}
    {fetchHK fetchA : String → List HistoryBar} {up : Bool} {now : String}
    {ws : Worksheet} {codeCol vhCol vlCol vCol : Nat}
    (hs : sheetLookup wb sn = some ws)
    (h1 : headerIndex ws "代码" = some codeCol)
    (h7 : headerIndex ws "波动率h" = some vhCol)
    (h8 : headerIndex ws "波动率l" = some vlCol)
    (h9 : headerIndex ws "波动率" = some vCol) :
    update_stock_volatility wb sn fetchHK fetchA up now =
      ⟨updateSheet wb sn
         (sheetLoop (volRowStep fetchHK fetchA vhCol vlCol vCol
             (headerIndex ws "现价(CNY)") (headerIndex ws "现价(HKD)")
             (headerIndex ws "今日涨幅") (headerIndex ws "更新时间")
             (headerIndex ws "前低") up now) (stockCodes ws codeCol) 2 ws).1,
       true, none,
       (sheetLoop (volRowStep fetchHK fetchA vhCol vlCol vCol
           (headerIndex ws "现价(CNY)") (headerIndex ws "现价(HKD)")
           (headerIndex ws "今日涨幅") (headerIndex ws "更新时间")
           (headerIndex ws "前低") up now) (stockCodes ws codeCol) 2 ws).2⟩ := by
  have hreq := requiredMissing_vol_none h1 h7 h8 h9
  unfold update_stock_volatility
  simp only [hs, hreq, h1, h7, h8, h9, Option.getD_some]

theorem priceRowStep_unknown {aData hkData : Snapshot}
    {aCol hkCol pctCol totalCol timeCol : Nat} {plOpt : Option Nat} {now : String}
    {codeCell : Cell} {row : List Cell}
    (h5 : (cellStr codeCell).length ≠ 5) (h6 : (cellStr codeCell).length ≠ 6) :
    priceRowStep aData hkData aCol hkCol pctCol totalCol timeCol plOpt now codeCell row
      = (row, []) := by
  simp [priceRowStep, h5, h6]

theorem priceRowStep_hk_notFound {aData hkData : Snapshot}
    {aCol hkCol pctCol totalCol timeCol : Nat} {plOpt : Option Nat} {now : String}
    {codeCell : Cell} {row : List Cell}
    (h5 : (cellStr codeCell).length = 5)
    (hf : snapshotFind hkData (cellStr codeCell) = none) :
    priceRowStep aData hkData aCol hkCol pctCol totalCol timeCol plOpt now codeCell row
      = (row, [LogEvent.notFound (cellStr codeCell)]) := by
  simp [priceRowStep, h5, hf]

theorem priceRowStep_hk_invalid {aData hkData : Snapshot}
    {aCol hkCol pctCol totalCol timeCol : Nat} {plOpt : Option Nat} {now : String}
    {codeCell : Cell} {row : List Cell} {qr : QuoteRow}
    (h5 : (cellStr codeCell).length = 5)
    (hf : snapshotFind hkData (cellStr codeCell) = some qr)
    (hbad : qr.latest = none ∨ ∃ p, qr.latest = some p ∧ p ≤ 0) :
    priceRowStep aData hkData aCol hkCol pctCol totalCol timeCol plOpt now codeCell row
      = (row, [LogEvent.invalidPrice (cellStr codeCell)]) := by
  rcases hbad with hl | ⟨p, hl, hp⟩
  · simp [priceRowStep, h5, hf, hl]
  · simp [priceRowStep, h5, hf, hl, hp]

theorem priceRowStep_a_notFound {aData hkData : Snapshot}
    {aCol hkCol pctCol totalCol timeCol : Nat} {plOpt : Option Nat} {now : String}
    {codeCell : Cell} {row : List Cell}
    (h6 : (cellStr codeCell).length = 6)
    (hf : snapshotFind aData (cellStr codeCell) = none) :
    priceRowStep aData hkData aCol hkCol pctCol totalCol timeCol plOpt now codeCell row
      = (row, [LogEvent.notFound (cellStr codeCell)]) := by
  have h5 : (cellStr codeCell).length ≠ 5 := by omega
  simp [priceRowStep, h5, h6, hf]

theorem priceRowStep_a_invalid {aData hkData : Snapshot}
    {aCol hkCol pctCol totalCol timeCol : Nat} {plOpt : Option Nat} {now : String}
    {codeCell : Cell} {row : List Cell} {qr : QuoteRow}
    (h6 : (cellStr codeCell).length = 6)
    (hf : snapshotFind aData (cellStr codeCell) = some qr)
    (hbad : qr.latest = none ∨ ∃ p, qr.latest = some p ∧ p ≤ 0) :
    priceRowStep aData hkData aCol hkCol pctCol totalCol timeCol plOpt now codeCell row
      = (row, [LogEvent.invalidPrice (cellStr codeCell)]) := by
  have h5 : (cellStr codeCell).length ≠ 5 := by omega
  rcases hbad with hl | ⟨p, hl, hp⟩
  · simp [priceRowStep, h5, h6, hf, hl]
  · simp [priceRowStep, h5, h6, hf, hl, hp]

theorem priceRowStep_len5_frame {aData hkData : Snapshot}
    {aCol hkCol pctCol totalCol timeCol : Nat} {plOpt : Option Nat} {now : String}
    {codeCell : Cell} {row : List Cell} {c' : Nat}
    (h5 : (cellStr codeCell).length = 5)
    (d1 : c' - 1 ≠ hkCol - 1) (d2 : c' - 1 ≠ pctCol - 1) (d3 : c' - 1 ≠ timeCol - 1)
    (d4 : ∀ x, plOpt = some x → c' - 1 ≠ x - 1) :
    getCellRow (priceRowStep aData hkData aCol hkCol pctCol totalCol timeCol plOpt now
        codeCell row).1 c' = getCellRow row c' := by
  simp only [priceRowStep]
  rw [if_pos h5]
  split
  · split
    · rfl
    · split
      · rfl
      · dsimp only
        rw [getCellRow_updatePrevLowRow_ne _ _ d4,
          getCellRow_setCellRow_ne _ _ d3,
          getCellRow_setCellRow_ne _ _ d2,
          getCellRow_setCellRow_ne _ _ d1]
  · rfl

theorem priceRowStep_len6_frame {aData hkData : Snapshot}
    {aCol hkCol pctCol totalCol timeCol : Nat} {plOpt : Option Nat} {now : String}
    {codeCell : Cell} {row : List Cell} {c' : Nat}
    (h6 : (cellStr codeCell).length = 6)
    (d0 : c' - 1 ≠ aCol - 1) (d1 : c' - 1 ≠ totalCol - 1)
    (d2 : c' - 1 ≠ pctCol - 1) (d3 : c' - 1 ≠ timeCol - 1)
    (d4 : ∀ x, plOpt = some x → c' - 1 ≠ x - 1) :
    getCellRow (priceRowStep aData hkData aCol hkCol pctCol totalCol timeCol plOpt now
        codeCell row).1 c' = getCellRow row c' := by
  have h5 : ¬ (cellStr codeCell).length = 5 := by omega
  simp only [priceRowStep]
  rw [if_neg h5, if_pos h6]
  split
  · split
    · rfl
    · split
      · rfl
      · dsimp only
        rw [getCellRow_updatePrevLowRow_ne _ _ d4,
          getCellRow_setCellRow_ne _ _ d3,
          getCellRow_setCellRow_ne _ _ d2,
          getCellRow_setCellRow_ne _ _ d1,
          getCellRow_setCellRow_ne _ _ d0]
  · rfl

theorem priceRowStep_len6_total {aData hkData : Snapshot}
    {aCol hkCol pctCol totalCol timeCol : Nat} {plOpt : Option Nat} {now : String}
    {codeCell : Cell} {row : List Cell} {qr : QuoteRow} {p : ℚ}
    (h6 : (cellStr codeCell).length = 6)
    (hf : snapshotFind aData (cellStr codeCell) = some qr)
    (hl : qr.latest = some p) (hp : ¬ p ≤ 0)
    (d1 : totalCol - 1 ≠ pctCol - 1) (d2 : totalCol - 1 ≠ timeCol - 1)
    (d3 : ∀ x, plOpt = some x → totalCol - 1 ≠ x - 1) :
    getCellRow (priceRowStep aData hkData aCol hkCol pctCol totalCol timeCol plOpt now
        codeCell row).1 totalCol
      = some (Value.num (qr.totalValue / p * (1 / 100000000))) := by
  have h5 : ¬ (cellStr codeCell).length = 5 := by omega
  simp only [priceRowStep, hf, hl]
  rw [if_neg h5, if_pos h6]
  rw [if_neg hp]
  dsimp only
  rw [getCellRow_updatePrevLowRow_ne _ _ d3,
    getCellRow_setCellRow_ne _ _ d2,
    getCellRow_setCellRow_ne _ _ d1,
    getCellRow_setCellRow_same]

theorem volRowStep_unknown {fetchHK fetchA : String → List HistoryBar}
    {vhCol vlCol vCol : Nat} {aCol hkCol pctCol timeCol plCol : Option Nat}
    {up : Bool} {now : String} {codeCell : Cell} {row : List Cell}
    (h5 : (cellStr codeCell).length ≠ 5) (h6 : (cellStr codeCell).length ≠ 6) :
    volRowStep fetchHK fetchA vhCol vlCol vCol aCol hkCol pctCol timeCol plCol up now
        codeCell row = (row, [LogEvent.notFound (cellStr codeCell)]) := by
  simp [volRowStep, get_stock_history, h5, h6]

theorem volRowStep_len5_frame {fetchHK fetchA : String → List HistoryBar}
    {vhCol vlCol vCol : Nat} {aCol hkCol pctCol timeCol plCol : Option Nat}
    {up : Bool} {now : String} {codeCell : Cell} {row : List Cell} {c' : Nat}
    (h5 : (cellStr codeCell).length = 5)
    (dvh : c' - 1 ≠ vhCol - 1) (dvl : c' - 1 ≠ vlCol - 1) (dv : c' - 1 ≠ vCol - 1)
    (dhk : ∀ x, hkCol = some x → c' - 1 ≠ x - 1)
    (dpc : ∀ x, pctCol = some x → c' - 1 ≠ x - 1)
    (dpl : ∀ x, plCol = some x → c' - 1 ≠ x - 1)
    (dtc : ∀ x, timeCol = some x → c' - 1 ≠ x - 1) :
    getCellRow (volRowStep fetchHK fetchA vhCol vlCol vCol aCol hkCol pctCol timeCol plCol
        up now codeCell row).1 c' = getCellRow row c' := by
  simp only [volRowStep]
  by_cases hb : (get_stock_history fetchHK fetchA (cellStr codeCell)).isEmpty = true
  · rw [if_pos hb]
  · rw [if_neg hb]
    cases up with
    | false =>
      rw [if_neg (by simp)]
      dsimp only
      rw [getCellRow_setCellRow_ne _ _ dv, getCellRow_setCellRow_ne _ _ dvl,
        getCellRow_setCellRow_ne _ _ dvh]
    | true =>
      rw [if_pos rfl]
      dsimp only
      rw [getCellRow_setCellRowOpt_ne _ _ dtc]
      rw [if_pos h5]
      cases hk : hkCol with
      | none =>
        dsimp only
        rw [getCellRow_setCellRow_ne _ _ dv, getCellRow_setCellRow_ne _ _ dvl,
          getCellRow_setCellRow_ne _ _ dvh]
      | some hc =>
        dsimp only
        rw [getCellRow_updatePrevLowRow_ne _ _ dpl,
          getCellRow_setCellRowOpt_ne _ _ dpc,
          getCellRow_setCellRow_ne _ _ (dhk hc hk)]
        rw [getCellRow_setCellRow_ne _ _ dv, getCellRow_setCellRow_ne _ _ dvl,
          getCellRow_setCellRow_ne _ _ dvh]

theorem volRowStep_len6_frame {fetchHK fetchA : String → List HistoryBar}
    {vhCol vlCol vCol : Nat} {aCol hkCol pctCol timeCol plCol : Option Nat}
    {up : Bool} {now : String} {codeCell : Cell} {row : List Cell} {c' : Nat}
    (h6 : (cellStr codeCell).length = 6)
    (dvh : c' - 1 ≠ vhCol - 1) (dvl : c' - 1 ≠ vlCol - 1) (dv : c' - 1 ≠ vCol - 1)
    (dac : ∀ x, aCol = some x → c' - 1 ≠ x - 1)
    (dpc : ∀ x, pctCol = some x → c' - 1 ≠ x - 1)
    (dpl : ∀ x, plCol = some x → c' - 1 ≠ x - 1)
    (dtc : ∀ x, timeCol = some x → c' - 1 ≠ x - 1) :
    getCellRow (volRowStep fetchHK fetchA vhCol vlCol vCol aCol hkCol pctCol timeCol plCol
        up now codeCell row).1 c' = getCellRow row c' := by
  have h5 : ¬ (cellStr codeCell).length = 5 := by omega
  simp only [volRowStep]
  by_cases hb : (get_stock_history fetchHK fetchA (cellStr codeCell)).isEmpty = true
  · rw [if_pos hb]
  · rw [if_neg hb]
    cases up with
    | false =>
      rw [if_neg (by simp)]
      dsimp only
      rw [getCellRow_setCellRow_ne _ _ dv, getCellRow_setCellRow_ne _ _ dvl,
        getCellRow_setCellRow_ne _ _ dvh]
    | true =>
      rw [if_pos rfl]
      dsimp only
      rw [getCellRow_setCellRowOpt_ne _ _ dtc]
      rw [if_neg h5, if_pos h6]
      cases ha : aCol with
      | none =>
        dsimp only
        rw [getCellRow_setCellRow_ne _ _ dv, getCellRow_setCellRow_ne _ _ dvl,
          getCellRow_setCellRow_ne _ _ dvh]
      | some ac =>
        dsimp only
        rw [getCellRow_updatePrevLowRow_ne _ _ dpl,
          getCellRow_setCellRowOpt_ne _ _ dpc,
          getCellRow_setCellRow_ne _ _ (dac ac ha)]
        rw [getCellRow_setCellRow_ne _ _ dv, getCellRow_setCellRow_ne _ _ dvl,
          getCellRow_setCellRow_ne _ _ dvh]

theorem zipWith_map_same {α β : Type} (h : β → β → β) (f g : α → β) (l : List α) :
    List.zipWith h (l.map f) (l.map g) = l.map (fun x => h (f x) (g x)) := by
  induction l with
  | nil => rfl
  | cons a l ih => simp [ih]

theorem filterMap_if_eq {α β : Type} (p : α → Bool) (f : α → β) (l : List α) :
    l.filterMap (fun a => if p a then some (f a) else none) = (l.filter p).map f := by
  induction l with
  | nil => rfl
  | cons a l ih =>
    by_cases hp : p a = true
    · simp [List.filterMap_cons, List.filter_cons, hp, ih]
    · simp [List.filterMap_cons, List.filter_cons, hp, ih]

theorem resultSheet_updateSheet (wb : Workbook) (sn : String) (ws2 : Worksheet)
    (h : (sheetLookup wb sn).isSome) :
    resultSheet (updateSheet wb sn ws2) sn = ws2 := by
  unfold resultSheet
  rw [sheetLookup_updateSheet wb sn ws2 h]
  rfl

/-- C1: the watermark update yields the new price when the stored previous
low is null/NaN and `min(current, new_price)` otherwise, hence the result
never exceeds a recorded previous low; over the live price sequence
50, 45, 48 the watermark ends at 45. -/
theorem C1_watermark_update (c n : ℚ) :
    update_previous_low none n = n ∧
    update_previous_low (some c) n = min c n ∧
    update_previous_low (some c) n ≤ c ∧
    update_previous_low
      (some (update_previous_low (some (update_previous_low none 50)) 45)) 48 = 45 := by
  refine ⟨rfl, ?_, ?_, ?_⟩
  · simp [update_previous_low, min_comm]
  · simp only [update_previous_low]
    exact min_le_right n c
  · simp only [update_previous_low]
    norm_num [min_def]

/-- C2: the volatility calculator returns exactly the arithmetic means of
the per-bar upside, downside and combined excursions, and on the single
documented bar (close 100, change 2, high 103, low 97) yields
(5/98, -1/98, 5/98). -/
theorem C2_volatility_means (bars : List HistoryBar) (_hne : bars ≠ []) :
    calculate_volatility bars =
      (seriesMean (bars.map upsideSpec), seriesMean (bars.map downsideSpec),
       seriesMean (bars.map combinedSpec)) ∧
    calculate_volatility [⟨100, 2, 103, 97, 0⟩] = (5/98, -1/98, 5/98) := by
  constructor
  · simp only [calculate_volatility]
    rw [List.map_map, zipWith_map_same]
    rfl
  · unfold calculate_volatility seriesMean
    norm_num

/-- Witness for C2 at the single documented bar. -/
theorem C2_volatility_means_witness :
    (([⟨100, 2, 103, 97, 0⟩] : List HistoryBar) ≠ []) ∧
    calculate_volatility [⟨100, 2, 103, 97, 0⟩] = (5/98, -1/98, 5/98) :=
  ⟨by simp, (C2_volatility_means [⟨100, 2, 103, 97, 0⟩] (by simp)).2⟩

/-- C9 counterexample: with the code column in column 1 of `wsC9`, row 2
has a non-empty code cell yet is excluded from the ticker list, because the
comprehension's filter tests the cell to the right of the code column; row
3, whose code cell is empty, is included (as `none`) instead. -/
theorem C9_ticker_filter_counterexample :
    truthy (getCell wsC9 2 1) = true ∧
    truthy (getCell wsC9 3 1) = false ∧
    stockCodes wsC9 1 = [none] ∧
    some (Value.str "00001") ∉ stockCodes wsC9 1 := by
  refine ⟨rfl, rfl, rfl, ?_⟩
  decide

/-- C9 (amended): the ticker list consists of the code-column values of
exactly those rows below the header whose cell in the column immediately to
the right of the code column is truthy; the code cell's own content does
not decide inclusion. -/
theorem C9_ticker_list_amended (ws : Worksheet) (codeCol : Nat) :
    stockCodes ws codeCol =
      ((ws.rows.drop 1).filter (fun r => truthy (r.getD codeCol none))).map
        (fun r => r.getD (codeCol - 1) none) :=
  filterMap_if_eq _ _ _

/-- C3: with the sheet present and the schema complete, an empty snapshot
from either market makes the price driver return False with the workbook
untouched (zero cells written) and not saved; with both snapshots non-empty
it returns True and saves, regardless of per-ticker outcomes. -/
theorem C3_snapshot_failure_contract (wb : Workbook) (sn : String)
    (aData hkData : Snapshot) (now : String) (ws : Worksheet)
    (hs : sheetLookup wb sn = some ws)
    (hreq : requiredMissing ws priceRequired = none) :
    ((aData = [] ∨ hkData = []) →
      (update_stock_prices wb sn aData hkData now).ret = some false ∧
      (update_stock_prices wb sn aData hkData now).wb = wb ∧
      (update_stock_prices wb sn aData hkData now).saved = false) ∧
    (aData ≠ [] → hkData ≠ [] →
      (update_stock_prices wb sn aData hkData now).ret = some true ∧
      (update_stock_prices wb sn aData hkData now).saved = true) := by
  constructor
  · intro hemp
    rcases hemp with he | he
    · subst he
      unfold update_stock_prices
      simp [hs, hreq]
    · by_cases hae : aData = []
      · subst hae
        unfold update_stock_prices
        simp [hs, hreq]
      · subst he
        unfold update_stock_prices
        simp [hs, hreq, isEmpty_false_of_ne hae]
  · intro ha hk
    unfold update_stock_prices
    simp [hs, hreq, isEmpty_false_of_ne ha, isEmpty_false_of_ne hk]

/-- Witness for C3: a concrete failure run with an empty A-share snapshot,
and a successful run on a workbook in which one ticker is absent from its
snapshot and another has an unknown code length. -/
theorem C3_snapshot_failure_contract_witness :
    ((update_stock_prices wbEx sheetName [] hkSnapEx "t").ret = some false ∧
     (update_stock_prices wbEx sheetName [] hkSnapEx "t").wb = wbEx ∧
     (update_stock_prices wbEx sheetName [] hkSnapEx "t").saved = false) ∧
    ((update_stock_prices wbEx sheetName aSnapEx hkSnapEx "t").ret = some true ∧
     (update_stock_prices wbEx sheetName aSnapEx hkSnapEx "t").saved = true) :=
  ⟨(C3_snapshot_failure_contract wbEx sheetName [] hkSnapEx "t" wsEx (by decide)
      (by decide)).1 (Or.inl rfl),
   (C3_snapshot_failure_contract wbEx sheetName aSnapEx hkSnapEx "t" wsEx (by decide)
      (by decide)).2 (by decide) (by decide)⟩

/-- C4: with the combined-update flag the coordinator runs the price driver
first and then the volatility driver with `update_prices` equal to the
negation of the price driver's success (a None return also counts as
failure); with the volatility-only flag it runs the volatility driver with
`update_prices = true` unconditionally. -/
theorem C4_coordinator_fallback (args : Args) (wb0 : Workbook)
    (aData hkData : Snapshot) (fetchHK fetchA : String → List HistoryBar) (now : String) :
    (args.all = true →
      (main_run args wb0 aData hkData fetchHK fetchA now).2 =
        [RunStep.prices (update_stock_prices wb0 sheetName aData hkData now).ret,
         RunStep.volatility
           (decide ((update_stock_prices wb0 sheetName aData hkData now).ret ≠ some true))]) ∧
    (args.all = false → args.price = false → args.volatility = true →
      (main_run args wb0 aData hkData fetchHK fetchA now).2 = [RunStep.volatility true]) := by
  constructor
  · intro hall
    unfold main_run
    simp only [hall, if_pos, List.cons.injEq, and_true, true_and]
    cases hr : (update_stock_prices wb0 sheetName aData hkData now).ret with
    | none => decide
    | some b => cases b <;> decide
  · intro hall hprice hvol
    unfold main_run
    simp [hall, hprice, hvol]

/-- Witness for C4: concrete combined-update and volatility-only runs. -/
theorem C4_coordinator_fallback_witness :
    ((main_run ⟨false, false, true⟩ wbEx aSnapEx hkSnapEx fetchHKEx fetchAEx "t").2 =
      [RunStep.prices (update_stock_prices wbEx sheetName aSnapEx hkSnapEx "t").ret,
       RunStep.volatility
         (decide ((update_stock_prices wbEx sheetName aSnapEx hkSnapEx "t").ret ≠ some true))]) ∧
    ((main_run ⟨false, true, false⟩ wbEx aSnapEx hkSnapEx fetchHKEx fetchAEx "t").2 =
      [RunStep.volatility true]) :=
  ⟨(C4_coordinator_fallback ⟨false, false, true⟩ wbEx aSnapEx hkSnapEx fetchHKEx fetchAEx
      "t").1 rfl,
   (C4_coordinator_fallback ⟨false, true, false⟩ wbEx aSnapEx hkSnapEx fetchHKEx fetchAEx
      "t").2 rfl rfl rfl⟩

/-- C8: a missing required column makes the affected driver return with the
workbook unmodified and unsaved, logging exactly that column, and without
raising; in a combined run the volatility driver still runs after the
price driver regardless. -/
theorem C8_missing_column_aborts (wb : Workbook) (sn : String)
    (aData hkData : Snapshot) (fetchHK fetchA : String → List HistoryBar)
    (up : Bool) (now : String) (ws : Worksheet) (c1 c2 : String) (args : Args)
    (wb0 : Workbook)
    (hs : sheetLookup wb sn = some ws) :
    (requiredMissing ws priceRequired = some c1 →
      update_stock_prices wb sn aData hkData now
        = ⟨wb, false, none, [LogEvent.missingColumn c1]⟩) ∧
    (requiredMissing ws volRequired = some c2 →
      update_stock_volatility wb sn fetchHK fetchA up now
        = ⟨wb, false, none, [LogEvent.missingColumn c2]⟩) ∧
    (args.all = true → ∃ b,
      (main_run args wb0 aData hkData fetchHK fetchA now).2 =
        [RunStep.prices (update_stock_prices wb0 sheetName aData hkData now).ret,
         RunStep.volatility b]) := by
  refine ⟨?_, ?_, ?_⟩
  · intro hm
    unfold update_stock_prices
    simp [hs, hm]
  · intro hm
    unfold update_stock_volatility
    simp [hs, hm]
  · intro hall
    unfold main_run
    simp only [hall, if_pos]
    exact ⟨_, rfl⟩

/-- Witness for C8: a workbook whose header has only the code column, so
the price driver reports the CNY price column and the volatility driver
reports the volatility-h column, while the combined run still performs
both driver invocations. -/
theorem C8_missing_column_aborts_witness :
    (update_stock_prices wbBadEx sheetName aSnapEx hkSnapEx "t"
      = ⟨wbBadEx, false, none, [LogEvent.missingColumn "现价(CNY)"]⟩) ∧
    (update_stock_volatility wbBadEx sheetName fetchHKEx fetchAEx true "t"
      = ⟨wbBadEx, false, none, [LogEvent.missingColumn "波动率h"]⟩) ∧
    (∃ b, (main_run ⟨false, false, true⟩ wbBadEx aSnapEx hkSnapEx fetchHKEx fetchAEx "t").2 =
      [RunStep.prices (update_stock_prices wbBadEx sheetName aSnapEx hkSnapEx "t").ret,
       RunStep.volatility b]) := by
  have h := C8_missing_column_aborts wbBadEx sheetName aSnapEx hkSnapEx fetchHKEx fetchAEx
    true "t" wsBadEx "现价(CNY)" "波动率h" ⟨false, false, true⟩ wbBadEx (by decide)
  exact ⟨h.1 (by decide), h.2.1 (by decide), h.2.2 rfl⟩

theorem headerIndex_sub_ne {ws : Worksheet} {s1 s2 : String} {c1 c2 : Nat}
    (h1 : headerIndex ws s1 = some c1) (h2 : headerIndex ws s2 = some c2)
    (hne : s1 ≠ s2) : c1 - 1 ≠ c2 - 1 := by
  have hp1 := headerIndex_pos h1
  have hp2 := headerIndex_pos h2
  have hcc := headerIndex_inj h1 h2 hne
  omega

theorem price_driver_row {wb : Workbook} {sn : String} {aData hkData : Snapshot}
    {now : String} {ws : Worksheet}
    {codeCol aCol hkCol pctCol totalCol timeCol : Nat} {j : Nat}
    (hs : sheetLookup wb sn = some ws)
    (h1 : headerIndex ws "代码" = some codeCol)
    (h2 : headerIndex ws "现价(CNY)" = some aCol)
    (h3 : headerIndex ws "现价(HKD)" = some hkCol)
    (h4 : headerIndex ws "今日涨幅" = some pctCol)
    (h5 : headerIndex ws "总股本" = some totalCol)
    (h6 : headerIndex ws "更新时间" = some timeCol)
    (ha : aData ≠ []) (hk : hkData ≠ [])
    (hj : j < (stockCodes ws codeCol).length) :
    getRow (resultSheet (update_stock_prices wb sn aData hkData now).wb sn) (j + 2)
      = (priceRowStep aData hkData aCol hkCol pctCol totalCol timeCol
          (headerIndex ws "前低") now ((stockCodes ws codeCol).getD j none)
          (getRow ws (j + 2))).1 := by
  rw [update_stock_prices_eq hs h1 h2 h3 h4 h5 h6 ha hk]
  dsimp only
  rw [resultSheet_updateSheet _ _ _ (by rw [hs]; rfl)]
  rw [getRow_setCell_ne _ _ _ _ (by omega)]
  have hc : j + 2 = 2 + j := by omega
  rw [hc]
  rw [sheetLoop_getRow_focus _ _ 2 j ws hj (by omega)]

theorem price_driver_log {wb : Workbook} {sn : String} {aData hkData : Snapshot}
    {now : String} {ws : Worksheet}
    {codeCol aCol hkCol pctCol totalCol timeCol : Nat} {j : Nat}
    (hs : sheetLookup wb sn = some ws)
    (h1 : headerIndex ws "代码" = some codeCol)
    (h2 : headerIndex ws "现价(CNY)" = some aCol)
    (h3 : headerIndex ws "现价(HKD)" = some hkCol)
    (h4 : headerIndex ws "今日涨幅" = some pctCol)
    (h5 : headerIndex ws "总股本" = some totalCol)
    (h6 : headerIndex ws "更新时间" = some timeCol)
    (ha : aData ≠ []) (hk : hkData ≠ [])
    (hj : j < (stockCodes ws codeCol).length) (e : LogEvent)
    (hmem : e ∈ (priceRowStep aData hkData aCol hkCol pctCol totalCol timeCol
        (headerIndex ws "前低") now ((stockCodes ws codeCol).getD j none)
        (getRow ws (j + 2))).2) :
    e ∈ (update_stock_prices wb sn aData hkData now).logs := by
  rw [update_stock_prices_eq hs h1 h2 h3 h4 h5 h6 ha hk]
  dsimp only
  refine sheetLoop_log_mem _ _ 2 j ws e hj (by omega) ?_
  have hc : 2 + j = j + 2 := by omega
  rw [hc]
  exact hmem

theorem vol_driver_row {wb : Workbook} {sn : String}
    {fetchHK fetchA : String → List HistoryBar} {up : Bool} {now : String}
    {ws : Worksheet} {codeCol vhCol vlCol vCol : Nat} {j : Nat}
    (hs : sheetLookup wb sn = some ws)
    (h1 : headerIndex ws "代码" = some codeCol)
    (h7 : headerIndex ws "波动率h" = some vhCol)
    (h8 : headerIndex ws "波动率l" = some vlCol)
    (h9 : headerIndex ws "波动率" = some vCol)
    (hj : j < (stockCodes ws codeCol).length) :
    getRow (resultSheet (update_stock_volatility wb sn fetchHK fetchA up now).wb sn) (j + 2)
      = (volRowStep fetchHK fetchA vhCol vlCol vCol
          (headerIndex ws "现价(CNY)") (headerIndex ws "现价(HKD)")
          (headerIndex ws "今日涨幅") (headerIndex ws "更新时间") (headerIndex ws "前低")
          up now ((stockCodes ws codeCol).getD j none) (getRow ws (j + 2))).1 := by
  rw [update_stock_volatility_eq hs h1 h7 h8 h9]
  dsimp only
  rw [resultSheet_updateSheet _ _ _ (by rw [hs]; rfl)]
  have hc : j + 2 = 2 + j := by omega
  rw [hc]
  rw [sheetLoop_getRow_focus _ _ 2 j ws hj (by omega)]

theorem vol_driver_log {wb : Workbook} {sn : String}
    {fetchHK fetchA : String → List HistoryBar} {up : Bool} {now : String}
    {ws : Worksheet} {codeCol vhCol vlCol vCol : Nat} {j : Nat}
    (hs : sheetLookup wb sn = some ws)
    (h1 : headerIndex ws "代码" = some codeCol)
    (h7 : headerIndex ws "波动率h" = some vhCol)
    (h8 : headerIndex ws "波动率l" = some vlCol)
    (h9 : headerIndex ws "波动率" = some vCol)
    (hj : j < (stockCodes ws codeCol).length) (e : LogEvent)
    (hmem : e ∈ (volRowStep fetchHK fetchA vhCol vlCol vCol
        (headerIndex ws "现价(CNY)") (headerIndex ws "现价(HKD)")
        (headerIndex ws "今日涨幅") (headerIndex ws "更新时间") (headerIndex ws "前低")
        up now ((stockCodes ws codeCol).getD j none) (getRow ws (j + 2))).2) :
    e ∈ (update_stock_volatility wb sn fetchHK fetchA up now).logs := by
  rw [update_stock_volatility_eq hs h1 h7 h8 h9]
  dsimp only
  refine sheetLoop_log_mem _ _ 2 j ws e hj (by omega) ?_
  have hc : 2 + j = j + 2 := by omega
  rw [hc]
  exact hmem

theorem volRowStep_len5_writes {fetchHK fetchA : String → List HistoryBar}
    {vhCol vlCol vCol : Nat} {aCol pctCol timeCol : Option Nat} {hc plc : Nat}
    {now : String} {codeCell : Cell} {row : List Cell}
    (h5 : (cellStr codeCell).length = 5)
    (hbars : (get_stock_history fetchHK fetchA (cellStr codeCell)).isEmpty = false)
    (dh2 : ∀ x, pctCol = some x → hc - 1 ≠ x - 1)
    (dh3 : hc - 1 ≠ plc - 1)
    (dh4 : ∀ x, timeCol = some x → hc - 1 ≠ x - 1)
    (dp1 : plc - 1 ≠ vhCol - 1) (dp2 : plc - 1 ≠ vlCol - 1) (dp3 : plc - 1 ≠ vCol - 1)
    (dp4 : plc - 1 ≠ hc - 1)
    (dp5 : ∀ x, pctCol = some x → plc - 1 ≠ x - 1)
    (dp6 : ∀ x, timeCol = some x → plc - 1 ≠ x - 1) :
    getCellRow (volRowStep fetchHK fetchA vhCol vlCol vCol aCol (some hc) pctCol timeCol
        (some plc) true now codeCell row).1 hc
      = some (Value.num
          ((get_stock_history fetchHK fetchA (cellStr codeCell)).getLast?.getD
            defaultBar).close) ∧
    getCellRow (volRowStep fetchHK fetchA vhCol vlCol vCol aCol (some hc) pctCol timeCol
        (some plc) true now codeCell row).1 plc
      = some (Value.num (update_previous_low (cellNum (getCellRow row plc))
          ((get_stock_history fetchHK fetchA (cellStr codeCell)).getLast?.getD
            defaultBar).close)) := by
  have hb2 : ¬ (get_stock_history fetchHK fetchA (cellStr codeCell)).isEmpty = true := by
    rw [hbars]
    simp
  constructor
  · simp only [volRowStep]
    rw [if_neg hb2, if_pos trivial]
    dsimp only
    rw [getCellRow_setCellRowOpt_ne _ _ dh4]
    rw [if_pos h5]
    rw [getCellRow_updatePrevLowRow_ne _ _ (fun x hx => by cases hx; exact dh3),
      getCellRow_setCellRowOpt_ne _ _ dh2,
      getCellRow_setCellRow_same]
  · simp only [volRowStep]
    rw [if_neg hb2, if_pos trivial]
    dsimp only
    rw [getCellRow_setCellRowOpt_ne _ _ dp6]
    rw [if_pos h5]
    dsimp only [updatePrevLowRow]
    rw [getCellRow_setCellRow_same]
    rw [getCellRow_setCellRowOpt_ne _ _ dp5,
      getCellRow_setCellRow_ne _ _ dp4,
      getCellRow_setCellRow_ne _ _ dp3,
      getCellRow_setCellRow_ne _ _ dp2,
      getCellRow_setCellRow_ne _ _ dp1]

/-- C5 counterexample: the driver run on ticker `"600025"` (sheet row 3,
share-count column 5) writes the value computed from the snapshot's market
value; two runs differing only in the market value write two different
share counts (2 vs 3), so no hard-coded override value is written for
`"600025"` regardless of the computed value. -/
theorem C5_no_override_counterexample :
    (getCell (resultSheet (update_stock_prices wbEx sheetName aSnapEx hkSnapEx "t").wb
        sheetName) 3 5 = some (Value.num (2000000000 / 10 * (1 / 100000000)))) ∧
    (getCell (resultSheet (update_stock_prices wbEx sheetName aSnapEx2 hkSnapEx "t").wb
        sheetName) 3 5 = some (Value.num (3000000000 / 10 * (1 / 100000000)))) ∧
    (2000000000 / 10 * (1 / 100000000) : ℚ) = 2 ∧
    (3000000000 / 10 * (1 / 100000000) : ℚ) = 3 ∧
    ((2 : ℚ) ≠ 3) := by
  refine ⟨?_, ?_, by norm_num, by norm_num, by norm_num⟩
  · rfl
  · rfl

/-- C5 (amended): every A-share ticker found in its snapshot with a valid
price — including `"600025"` — gets `total_share_count = total_market_value
/ last_price * 1e-8` written to its share-count cell; the source contains
no hard-coded override for any ticker. -/
theorem C5_share_count_formula (wb : Workbook) (sn : String) (aData hkData : Snapshot)
    (now : String) (ws : Worksheet)
    (codeCol aCol hkCol pctCol totalCol timeCol : Nat) (j : Nat) (qr : QuoteRow) (p : ℚ)
    (hs : sheetLookup wb sn = some ws)
    (h1 : headerIndex ws "代码" = some codeCol)
    (h2 : headerIndex ws "现价(CNY)" = some aCol)
    (h3 : headerIndex ws "现价(HKD)" = some hkCol)
    (h4 : headerIndex ws "今日涨幅" = some pctCol)
    (h5 : headerIndex ws "总股本" = some totalCol)
    (h6 : headerIndex ws "更新时间" = some timeCol)
    (ha : aData ≠ []) (hk : hkData ≠ [])
    (hj : j < (stockCodes ws codeCol).length)
    (hlen : (cellStr ((stockCodes ws codeCol).getD j none)).length = 6)
    (hf : snapshotFind aData (cellStr ((stockCodes ws codeCol).getD j none)) = some qr)
    (hl : qr.latest = some p) (hp : 0 < p) :
    getCell (resultSheet (update_stock_prices wb sn aData hkData now).wb sn) (j + 2) totalCol
      = some (Value.num (qr.totalValue / p * (1 / 100000000))) := by
  have hrow := @price_driver_row wb sn aData hkData now ws codeCol aCol hkCol pctCol
    totalCol timeCol j hs h1 h2 h3 h4 h5 h6 ha hk hj
  unfold getCell
  rw [hrow]
  exact priceRowStep_len6_total hlen hf hl (not_le.mpr hp)
    (headerIndex_sub_ne h5 h4 (by decide))
    (headerIndex_sub_ne h5 h6 (by decide))
    (fun x hx => headerIndex_sub_ne h5 hx (by decide))

/-- Witness for C5 (amended) at the very ticker the original claim singles
out: `"600025"` receives the computed share count 2e9 / 10 * 1e-8. -/
theorem C5_share_count_formula_witness :
    getCell (resultSheet (update_stock_prices wbEx sheetName aSnapEx hkSnapEx "t").wb
        sheetName) 3 5
      = some (Value.num (2000000000 / 10 * (1 / 100000000))) :=
  C5_share_count_formula wbEx sheetName aSnapEx hkSnapEx "t" wsEx 1 2 3 4 5 6 1
    ⟨"600025", "HNHydro", some 10, 3, 2000000000⟩ 10
    (by decide) (by decide) (by decide) (by decide) (by decide) (by decide) (by decide)
    (by decide) (by decide) (by decide) (by decide) (by decide) (by decide) (by decide)

/-- C6 counterexample: the unknown-length code `"1234"` is skipped by the
volatility driver, but not silently: its empty history triggers the
not-found warning, so the claim's "silently skipped ... in both the price
driver and the volatility driver" is false for the volatility driver. -/
theorem C6_unknown_code_warning_counterexample :
    (cellStr ((stockCodes wsEx 1).getD 3 none)).length ≠ 5 ∧
    (cellStr ((stockCodes wsEx 1).getD 3 none)).length ≠ 6 ∧
    LogEvent.notFound "1234"
      ∈ (update_stock_volatility wbEx sheetName fetchHKEx fetchAEx true "t").logs := by
  decide

/-- C6 (amended): price writes are market-consistent in both drivers.  For
the ticker processed at loop position j: a 5-digit code never touches the
CNY price cell of its row, a 6-digit code never touches the HKD price cell
of its row, and a code of any other length leaves its whole row unchanged
in both drivers — with no console output from the price driver's iteration
(its step yields the unchanged row and an empty log), while the volatility
driver logs a not-found warning for it (its history fetch returns empty
for such codes). -/
theorem C6_market_consistency (wb : Workbook) (sn : String) (aData hkData : Snapshot)
    (fetchHK fetchA : String → List HistoryBar) (up : Bool) (now : String)
    (ws : Worksheet)
    (codeCol aCol hkCol pctCol totalCol timeCol vhCol vlCol vCol : Nat) (j : Nat)
    (hs : sheetLookup wb sn = some ws)
    (h1 : headerIndex ws "代码" = some codeCol)
    (h2 : headerIndex ws "现价(CNY)" = some aCol)
    (h3 : headerIndex ws "现价(HKD)" = some hkCol)
    (h4 : headerIndex ws "今日涨幅" = some pctCol)
    (h5 : headerIndex ws "总股本" = some totalCol)
    (h6 : headerIndex ws "更新时间" = some timeCol)
    (h7 : headerIndex ws "波动率h" = some vhCol)
    (h8 : headerIndex ws "波动率l" = some vlCol)
    (h9 : headerIndex ws "波动率" = some vCol)
    (ha : aData ≠ []) (hk : hkData ≠ [])
    (hj : j < (stockCodes ws codeCol).length) :
    ((cellStr ((stockCodes ws codeCol).getD j none)).length = 5 →
      getCell (resultSheet (update_stock_prices wb sn aData hkData now).wb sn) (j + 2) aCol
        = getCell ws (j + 2) aCol ∧
      getCell (resultSheet (update_stock_volatility wb sn fetchHK fetchA up now).wb sn)
          (j + 2) aCol
        = getCell ws (j + 2) aCol) ∧
    ((cellStr ((stockCodes ws codeCol).getD j none)).length = 6 →
      getCell (resultSheet (update_stock_prices wb sn aData hkData now).wb sn) (j + 2) hkCol
        = getCell ws (j + 2) hkCol ∧
      getCell (resultSheet (update_stock_volatility wb sn fetchHK fetchA up now).wb sn)
          (j + 2) hkCol
        = getCell ws (j + 2) hkCol) ∧
    ((cellStr ((stockCodes ws codeCol).getD j none)).length ≠ 5 →
     (cellStr ((stockCodes ws codeCol).getD j none)).length ≠ 6 →
      getRow (resultSheet (update_stock_prices wb sn aData hkData now).wb sn) (j + 2)
        = getRow ws (j + 2) ∧
      getRow (resultSheet (update_stock_volatility wb sn fetchHK fetchA up now).wb sn)
          (j + 2)
        = getRow ws (j + 2) ∧
      priceRowStep aData hkData aCol hkCol pctCol totalCol timeCol
          (headerIndex ws "前低") now ((stockCodes ws codeCol).getD j none)
          (getRow ws (j + 2))
        = (getRow ws (j + 2), []) ∧
      LogEvent.notFound (cellStr ((stockCodes ws codeCol).getD j none))
        ∈ (update_stock_volatility wb sn fetchHK fetchA up now).logs) := by
  have hprow := @price_driver_row wb sn aData hkData now ws codeCol aCol hkCol pctCol
    totalCol timeCol j hs h1 h2 h3 h4 h5 h6 ha hk hj
  have hvrow := @vol_driver_row wb sn fetchHK fetchA up now ws codeCol vhCol vlCol vCol j
    hs h1 h7 h8 h9 hj
  refine ⟨?_, ?_, ?_⟩
  · intro hlen
    constructor
    · unfold getCell
      rw [hprow]
      exact priceRowStep_len5_frame hlen
        (headerIndex_sub_ne h2 h3 (by decide))
        (headerIndex_sub_ne h2 h4 (by decide))
        (headerIndex_sub_ne h2 h6 (by decide))
        (fun x hx => headerIndex_sub_ne h2 hx (by decide))
    · unfold getCell
      rw [hvrow]
      exact volRowStep_len5_frame hlen
        (headerIndex_sub_ne h2 h7 (by decide))
        (headerIndex_sub_ne h2 h8 (by decide))
        (headerIndex_sub_ne h2 h9 (by decide))
        (fun x hx => headerIndex_sub_ne h2 hx (by decide))
        (fun x hx => headerIndex_sub_ne h2 hx (by decide))
        (fun x hx => headerIndex_sub_ne h2 hx (by decide))
        (fun x hx => headerIndex_sub_ne h2 hx (by decide))
  · intro hlen
    constructor
    · unfold getCell
      rw [hprow]
      exact priceRowStep_len6_frame hlen
        (headerIndex_sub_ne h3 h2 (by decide))
        (headerIndex_sub_ne h3 h5 (by decide))
        (headerIndex_sub_ne h3 h4 (by decide))
        (headerIndex_sub_ne h3 h6 (by decide))
        (fun x hx => headerIndex_sub_ne h3 hx (by decide))
    · unfold getCell
      rw [hvrow]
      exact volRowStep_len6_frame hlen
        (headerIndex_sub_ne h3 h7 (by decide))
        (headerIndex_sub_ne h3 h8 (by decide))
        (headerIndex_sub_ne h3 h9 (by decide))
        (fun x hx => headerIndex_sub_ne h3 hx (by decide))
        (fun x hx => headerIndex_sub_ne h3 hx (by decide))
        (fun x hx => headerIndex_sub_ne h3 hx (by decide))
        (fun x hx => headerIndex_sub_ne h3 hx (by decide))
  · intro hne5 hne6
    refine ⟨?_, ?_, ?_, ?_⟩
    · rw [hprow, priceRowStep_unknown hne5 hne6]
    · rw [hvrow, volRowStep_unknown hne5 hne6]
    · exact priceRowStep_unknown hne5 hne6
    · refine vol_driver_log hs h1 h7 h8 h9 hj _ ?_
      rw [volRowStep_unknown hne5 hne6]
      simp

/-- Witness for C6 (amended): ticker `"1234"` (loop position 3, sheet row
5) has an unknown code length; both drivers leave its row unchanged, the
price driver's step for it emits nothing, and the volatility driver logs a
not-found warning for it. -/
theorem C6_market_consistency_witness :
    getRow (resultSheet (update_stock_prices wbEx sheetName aSnapEx hkSnapEx "t").wb
        sheetName) 5 = getRow wsEx 5 ∧
    getRow (resultSheet (update_stock_volatility wbEx sheetName fetchHKEx fetchAEx true
        "t").wb sheetName) 5 = getRow wsEx 5 ∧
    priceRowStep aSnapEx hkSnapEx 2 3 4 5 6 (headerIndex wsEx "前低") "t"
        ((stockCodes wsEx 1).getD 3 none) (getRow wsEx 5)
      = (getRow wsEx 5, []) ∧
    LogEvent.notFound (cellStr ((stockCodes wsEx 1).getD 3 none))
      ∈ (update_stock_volatility wbEx sheetName fetchHKEx fetchAEx true "t").logs :=
  (C6_market_consistency wbEx sheetName aSnapEx hkSnapEx fetchHKEx fetchAEx true "t" wsEx
    1 2 3 4 5 6 8 9 10 3
    (by decide) (by decide) (by decide) (by decide) (by decide) (by decide) (by decide)
    (by decide) (by decide) (by decide) (by decide) (by decide) (by decide)).2.2
    (by decide) (by decide)

/-- C7: a ticker absent from its market snapshot, or quoted with a
null/NaN or non-positive price, has a warning logged and its sheet row left
byte-for-byte unchanged, while the price driver still completes the run
(returns True and saves). -/
theorem C7_invalid_ticker_skipped (wb : Workbook) (sn : String)
    (aData hkData : Snapshot) (now : String) (ws : Worksheet)
    (codeCol aCol hkCol pctCol totalCol timeCol : Nat) (j : Nat)
    (hs : sheetLookup wb sn = some ws)
    (h1 : headerIndex ws "代码" = some codeCol)
    (h2 : headerIndex ws "现价(CNY)" = some aCol)
    (h3 : headerIndex ws "现价(HKD)" = some hkCol)
    (h4 : headerIndex ws "今日涨幅" = some pctCol)
    (h5 : headerIndex ws "总股本" = some totalCol)
    (h6 : headerIndex ws "更新时间" = some timeCol)
    (ha : aData ≠ []) (hk : hkData ≠ [])
    (hj : j < (stockCodes ws codeCol).length)
    (hcase :
      ((cellStr ((stockCodes ws codeCol).getD j none)).length = 5 ∧
        (snapshotFind hkData (cellStr ((stockCodes ws codeCol).getD j none)) = none ∨
         ∃ qr, snapshotFind hkData (cellStr ((stockCodes ws codeCol).getD j none)) = some qr ∧
           (qr.latest = none ∨ ∃ p, qr.latest = some p ∧ p ≤ 0))) ∨
      ((cellStr ((stockCodes ws codeCol).getD j none)).length = 6 ∧
        (snapshotFind aData (cellStr ((stockCodes ws codeCol).getD j none)) = none ∨
         ∃ qr, snapshotFind aData (cellStr ((stockCodes ws codeCol).getD j none)) = some qr ∧
           (qr.latest = none ∨ ∃ p, qr.latest = some p ∧ p ≤ 0)))) :
    getRow (resultSheet (update_stock_prices wb sn aData hkData now).wb sn) (j + 2)
      = getRow ws (j + 2) ∧
    (LogEvent.notFound (cellStr ((stockCodes ws codeCol).getD j none))
        ∈ (update_stock_prices wb sn aData hkData now).logs ∨
     LogEvent.invalidPrice (cellStr ((stockCodes ws codeCol).getD j none))
        ∈ (update_stock_prices wb sn aData hkData now).logs) ∧
    (update_stock_prices wb sn aData hkData now).ret = some true ∧
    (update_stock_prices wb sn aData hkData now).saved = true := by
  have hrow := @price_driver_row wb sn aData hkData now ws codeCol aCol hkCol pctCol
    totalCol timeCol j hs h1 h2 h3 h4 h5 h6 ha hk hj
  have heq := @update_stock_prices_eq wb sn aData hkData now ws codeCol aCol hkCol pctCol
    totalCol timeCol hs h1 h2 h3 h4 h5 h6 ha hk
  have hretsave : (update_stock_prices wb sn aData hkData now).ret = some true ∧
      (update_stock_prices wb sn aData hkData now).saved = true := by
    rw [heq]
    exact ⟨rfl, rfl⟩
  rcases hcase with ⟨hlen, hsub⟩ | ⟨hlen, hsub⟩
  · rcases hsub with hnf | ⟨qr, hfq, hbad⟩
    · have hstep := @priceRowStep_hk_notFound aData hkData aCol hkCol pctCol totalCol
        timeCol (headerIndex ws "前低") now ((stockCodes ws codeCol).getD j none)
        (getRow ws (j + 2)) hlen hnf
      refine ⟨?_, Or.inl ?_, hretsave⟩
      · rw [hrow, hstep]
      · refine price_driver_log hs h1 h2 h3 h4 h5 h6 ha hk hj _ ?_
        rw [hstep]
        simp
    · have hstep := @priceRowStep_hk_invalid aData hkData aCol hkCol pctCol totalCol
        timeCol (headerIndex ws "前低") now ((stockCodes ws codeCol).getD j none)
        (getRow ws (j + 2)) qr hlen hfq hbad
      refine ⟨?_, Or.inr ?_, hretsave⟩
      · rw [hrow, hstep]
      · refine price_driver_log hs h1 h2 h3 h4 h5 h6 ha hk hj _ ?_
        rw [hstep]
        simp
  · rcases hsub with hnf | ⟨qr, hfq, hbad⟩
    · have hstep := @priceRowStep_a_notFound aData hkData aCol hkCol pctCol totalCol
        timeCol (headerIndex ws "前低") now ((stockCodes ws codeCol).getD j none)
        (getRow ws (j + 2)) hlen hnf
      refine ⟨?_, Or.inl ?_, hretsave⟩
      · rw [hrow, hstep]
      · refine price_driver_log hs h1 h2 h3 h4 h5 h6 ha hk hj _ ?_
        rw [hstep]
        simp
    · have hstep := @priceRowStep_a_invalid aData hkData aCol hkCol pctCol totalCol
        timeCol (headerIndex ws "前低") now ((stockCodes ws codeCol).getD j none)
        (getRow ws (j + 2)) qr hlen hfq hbad
      refine ⟨?_, Or.inr ?_, hretsave⟩
      · rw [hrow, hstep]
      · refine price_driver_log hs h1 h2 h3 h4 h5 h6 ha hk hj _ ?_
        rw [hstep]
        simp

/-- Witness for C7: ticker `"00002"` (loop position 2, sheet row 4) is
absent from the HK snapshot; its row stays unchanged, a not-found warning
is logged, and the run still succeeds. -/
theorem C7_invalid_ticker_skipped_witness :
    getRow (resultSheet (update_stock_prices wbEx sheetName aSnapEx hkSnapEx "t").wb
        sheetName) 4 = getRow wsEx 4 ∧
    (LogEvent.notFound "00002" ∈ (update_stock_prices wbEx sheetName aSnapEx hkSnapEx
        "t").logs ∨
     LogEvent.invalidPrice "00002" ∈ (update_stock_prices wbEx sheetName aSnapEx hkSnapEx
        "t").logs) ∧
    (update_stock_prices wbEx sheetName aSnapEx hkSnapEx "t").ret = some true ∧
    (update_stock_prices wbEx sheetName aSnapEx hkSnapEx "t").saved = true :=
  C7_invalid_ticker_skipped wbEx sheetName aSnapEx hkSnapEx "t" wsEx 1 2 3 4 5 6 2
    (by decide) (by decide) (by decide) (by decide) (by decide) (by decide) (by decide)
    (by decide) (by decide) (by decide)
    (Or.inl ⟨by decide, Or.inl (by decide)⟩)

/-- C10: with `update_prices = true` the volatility driver writes the most
recent bar's close into the HKD price cell of a 5-digit ticker and feeds
the same value into the watermark update, with no null/NaN/non-positive
validity check anywhere on that path: the conclusion holds with no
hypothesis on the close's sign, so a non-positive close is written and
becomes the new previous low. -/
theorem C10_backfill_unvalidated (wb : Workbook) (sn : String)
    (fetchHK fetchA : String → List HistoryBar) (now : String) (ws : Worksheet)
    (codeCol vhCol vlCol vCol hc plc : Nat) (j : Nat)
    (hs : sheetLookup wb sn = some ws)
    (h1 : headerIndex ws "代码" = some codeCol)
    (h7 : headerIndex ws "波动率h" = some vhCol)
    (h8 : headerIndex ws "波动率l" = some vlCol)
    (h9 : headerIndex ws "波动率" = some vCol)
    (hh : headerIndex ws "现价(HKD)" = some hc)
    (hpl : headerIndex ws "前低" = some plc)
    (hj : j < (stockCodes ws codeCol).length)
    (hlen : (cellStr ((stockCodes ws codeCol).getD j none)).length = 5)
    (hbars : (get_stock_history fetchHK fetchA
        (cellStr ((stockCodes ws codeCol).getD j none))).isEmpty = false) :
    getCell (resultSheet (update_stock_volatility wb sn fetchHK fetchA true now).wb sn)
        (j + 2) hc
      = some (Value.num ((get_stock_history fetchHK fetchA
          (cellStr ((stockCodes ws codeCol).getD j none))).getLast?.getD defaultBar).close) ∧
    getCell (resultSheet (update_stock_volatility wb sn fetchHK fetchA true now).wb sn)
        (j + 2) plc
      = some (Value.num (update_previous_low (cellNum (getCell ws (j + 2) plc))
          ((get_stock_history fetchHK fetchA
            (cellStr ((stockCodes ws codeCol).getD j none))).getLast?.getD
              defaultBar).close)) := by
  have hvrow := @vol_driver_row wb sn fetchHK fetchA true now ws codeCol vhCol vlCol
    vCol j hs h1 h7 h8 h9 hj
  rw [hh, hpl] at hvrow
  have hw := @volRowStep_len5_writes fetchHK fetchA vhCol vlCol vCol
    (headerIndex ws "现价(CNY)") (headerIndex ws "今日涨幅") (headerIndex ws "更新时间")
    hc plc now ((stockCodes ws codeCol).getD j none) (getRow ws (j + 2)) hlen hbars
    (fun x hx => headerIndex_sub_ne hh hx (by decide))
    (headerIndex_sub_ne hh hpl (by decide))
    (fun x hx => headerIndex_sub_ne hh hx (by decide))
    (headerIndex_sub_ne hpl h7 (by decide))
    (headerIndex_sub_ne hpl h8 (by decide))
    (headerIndex_sub_ne hpl h9 (by decide))
    (headerIndex_sub_ne hpl hh (by decide))
    (fun x hx => headerIndex_sub_ne hpl hx (by decide))
    (fun x hx => headerIndex_sub_ne hpl hx (by decide))
  constructor
  · unfold getCell
    rw [hvrow]
    exact hw.1
  · unfold getCell
    rw [hvrow]
    exact hw.2

/-- Witness for C10: a one-bar history whose close is -5 (non-positive);
the volatility driver writes -5 into the HKD price cell and the previous
low becomes -5, overwriting the stored 50. -/
theorem C10_backfill_unvalidated_witness :
    (getCell (resultSheet (update_stock_volatility wbEx sheetName fetchHKEx fetchAEx true
        "t").wb sheetName) 2 3 = some (Value.num (-5))) ∧
    (getCell (resultSheet (update_stock_volatility wbEx sheetName fetchHKEx fetchAEx true
        "t").wb sheetName) 2 7 = some (Value.num (-5))) ∧
    ((-5 : ℚ) ≤ 0) := by
  have h := C10_backfill_unvalidated wbEx sheetName fetchHKEx fetchAEx "t" wsEx
    1 8 9 10 3 7 0
    (by decide) (by decide) (by decide) (by decide) (by decide) (by decide) (by decide)
    (by decide) (by decide) (by decide)
  exact ⟨h.1.trans (by decide), h.2.trans (by decide), by decide⟩

end ViTools
